import Mathlib

/-!
Verification development for the cornea camera/pose pipeline.

The Python sources are shallowly embedded:
* `camera_worker.py` (`CameraWorker.run` / `CameraWorker.stop`) as a trace
  semantics: one execution of `run` maps an environment schedule (construction
  and camera-open outcomes, plus one input per loop iteration) to the list of
  observable actions it performs (signal emissions, frame reads, sleeps,
  resource releases).
* `mediapipe_processor.py` (`MediaPipeProcessor.process_frame`) as a function
  from the input frame and the inference outcome (which may be a raised
  exception) to the returned pair.
* `widgets/databar_widget.py` (`DatabarContentWidget.update_landmarks_display`)
  as a string-building function; landmark coordinates are modelled as exact
  rationals and Python `:.4f` / `:.2f` fixed-point formatting as decimal
  rounding (round-half-even, as Python uses for its float formatting).
-/

/-- A pose landmark: normalized coordinates and a visibility score.
Coordinates are modelled as exact rationals (Python uses IEEE doubles; every
concrete value appearing in the claims is exactly representable). -/
structure Landmark where
  x : ℚ
  y : ℚ
  z : ℚ
  visibility : ℚ
deriving DecidableEq

/-- The result object returned by `self.pose.process`: its `pose_landmarks`
field is `None` when no detection occurred, otherwise the landmark list. -/
structure PoseResults where
  pose_landmarks : Option (List Landmark)
deriving DecidableEq

/-- A frame buffer. A frame read from the camera is `raw id`; drawing the
pose annotation on an image yields `drawn`. Python's `frame.copy()` is a
value-equal copy, so copying is the identity in this value-level model. -/
inductive Image where
  | raw (id : Nat)
  | drawn (base : Image) (lms : List Landmark)
deriving DecidableEq

/-- Model of `mp_drawing.draw_landmarks` applied to (a copy of) an image. -/
def draw_landmarks (img : Image) (lms : List Landmark) : Image :=
  Image.drawn img lms

/-- Environment outcome of the body of the `try` block in
`MediaPipeProcessor.process_frame`: either some step inside the block raises
an exception with message `msg`, or `self.pose.process` returns a results
object whose `pose_landmarks` is `pose_landmarks`. -/
inductive InferOutcome where
  | raises (msg : String)
  | ok (pose_landmarks : Option (List Landmark))
deriving DecidableEq

/-- The `try` block of `MediaPipeProcessor.process_frame`
(`mediapipe_processor.py` lines 58-90): convert, run inference, copy the
original frame, draw the annotation when landmarks are present, and return
`(annotated_image, results)`; an exception anywhere in the block is the
`Except.error` case. -/
def process_frame_try (frame : Image) (o : InferOutcome) :
    Except String (Image × Option PoseResults) :=
  match o with
  | InferOutcome.raises msg => Except.error msg
  | InferOutcome.ok lmsOpt =>
      match lmsOpt with
      | some lms => Except.ok (draw_landmarks frame lms, some ⟨some lms⟩)
      | none => Except.ok (frame, some ⟨none⟩)

/-- `MediaPipeProcessor.process_frame` (`mediapipe_processor.py` lines 46-95):
run the `try` block; the `except Exception` handler returns the original
input frame and `None`. -/
def process_frame (frame : Image) (o : InferOutcome) :
    Image × Option PoseResults :=
  match process_frame_try frame o with
  | Except.ok r => r
  | Except.error _ => (frame, none)

/-- The four Qt signals of `CameraWorker`. -/
inductive Event where
  | frame_ready (img : Image)
  | landmarks_ready (lms : List Landmark)
  | error (msg : String)
  | finished
deriving DecidableEq

/-- Observable actions performed by one execution of `CameraWorker.run`. -/
inductive Act where
  | emit (e : Event)
  | readFrame
  | sleepMs (ms : Nat)
  | releaseCap
  | closeProcessor
deriving DecidableEq

/-- Environment input for one loop iteration of `CameraWorker.run` in which
the running flag was observed `True`: either `self._cap.read()` returns
`ret = False`, or it returns a frame (identified by `frameId`) together with
the inference outcome for that frame. -/
inductive IterInput where
  | readFail
  | readOk (frameId : Nat) (o : InferOutcome)
deriving DecidableEq

/-- Error message built at `camera_worker.py` line 46. -/
def mediaPipeInitErrorMsg (e : String) : String :=
  "Failed to initialize MediaPipe: " ++ e

/-- Error message built at `camera_worker.py` line 60. -/
def cameraOpenErrorMsg (idx : Nat) : String :=
  "Error: Could not open camera index " ++ Nat.repr idx ++ "."

/-- Actions of one loop iteration of `CameraWorker.run`
(`camera_worker.py` lines 83-104), given the iteration's input: on a failed
read, log only and `time.sleep(0.01)` (10 ms); on a successful read, call
`process_frame`, emit `frame_ready` with its first component, then emit
`landmarks_ready` exactly when the results object is not `None` and its
`pose_landmarks` is not `None`. -/
def iterActions (i : IterInput) : List Act :=
  match i with
  | IterInput.readFail => [Act.readFrame, Act.sleepMs 10]
  | IterInput.readOk fid o =>
      let pr := process_frame (Image.raw fid) o
      Act.readFrame :: Act.emit (Event.frame_ready pr.1) ::
        (match pr.2 with
         | some r =>
             match r.pose_landmarks with
             | some lms => [Act.emit (Event.landmarks_ready lms)]
             | none => []
         | none => [])

/-- Cleanup actions after the main loop exits (`camera_worker.py` lines
106-117): release the capture handle (it is non-`None` on every loop-reaching
path), close the processor, and only then emit `finished`. -/
def cleanupActions : List Act :=
  [Act.releaseCap, Act.closeProcessor, Act.emit Event.finished]

/-- Environment schedule for one terminating execution of `CameraWorker.run`:
the camera index, the outcome of `MediaPipeProcessor(...)` construction
(`some e` = it raised with message `e`), whether `cv2.VideoCapture` opened,
and the per-iteration inputs; the running flag is observed `True` at the
loop check before each listed iteration and `False` at the following check
(i.e. a `stop()` call lands after the last listed iteration). -/
structure Session where
  cameraIndex : Nat
  initResult : Option String
  openOk : Bool
  iters : List IterInput
deriving DecidableEq

/-- Trace of the body of the main loop for the iterations executed while the
running flag reads `True` (`camera_worker.py` lines 75-104, with no stop
observed yet): the concatenation of the per-iteration actions.  This is also
the complete emitted trace of a session that is never stopped: the loop then
never exits, so cleanup never runs and `finished` is never reached. -/
def runNoStop (iters : List IterInput) : List Act :=
  (iters.map iterActions).flatten

/-- One complete execution of `CameraWorker.run` (`camera_worker.py` lines
29-118) over a schedule.  If `MediaPipeProcessor(...)` raises: emit `error`,
clear the flag, emit `finished`, return (lines 45-53).  Else open the
camera; if that fails: emit `error`, clear the flag, close the constructed
processor, emit `finished`, return (lines 59-70).  Else run the loop until
the flag is observed `False`, then release the capture handle, close the
processor, and emit `finished` (lines 75-118). -/
def run (s : Session) : List Act :=
  match s.initResult with
  | some e =>
      [Act.emit (Event.error (mediaPipeInitErrorMsg e)),
       Act.emit Event.finished]
  | none =>
      if s.openOk then
        runNoStop s.iters ++ cleanupActions
      else
        [Act.emit (Event.error (cameraOpenErrorMsg s.cameraIndex)),
         Act.closeProcessor,
         Act.emit Event.finished]

/-- The signals a subscriber observes: the emitted events of a trace, in
order. -/
def events (tr : List Act) : List Event :=
  tr.filterMap (fun a =>
    match a with
    | Act.emit e => some e
    | _ => none)

/-- Boolean test: the event is `finished`. -/
def isFinishedEv (e : Event) : Bool :=
  match e with
  | Event.finished => true
  | _ => false

/-- Boolean test: the event is `error`. -/
def isErrorEv (e : Event) : Bool :=
  match e with
  | Event.error _ => true
  | _ => false

/-- Boolean test: the event is `frame_ready`. -/
def isFrameEv (e : Event) : Bool :=
  match e with
  | Event.frame_ready _ => true
  | _ => false

/-- Boolean test: the event is `landmarks_ready`. -/
def isLandmarksEv (e : Event) : Bool :=
  match e with
  | Event.landmarks_ready _ => true
  | _ => false

/-- Boolean test: the action is one that the loop body can perform (a read,
a sleep, or a `frame_ready`/`landmarks_ready` emission). -/
def isLoopBodyAct (a : Act) : Bool :=
  match a with
  | Act.readFrame => true
  | Act.sleepMs _ => true
  | Act.emit (Event.frame_ready _) => true
  | Act.emit (Event.landmarks_ready _) => true
  | _ => false

/-- Boolean test: the action emits `finished`. -/
def isFinishedEmit (a : Act) : Bool :=
  match a with
  | Act.emit Event.finished => true
  | _ => false

/-- The mutable state of a `CameraWorker` object relevant to its lifecycle
(`camera_worker.py` lines 20-26): the `_running` flag, the camera index,
and the optionally-held capture handle and processor. -/
structure CameraWorker where
  running : Bool
  camera_index : Nat
  cap : Option Nat
  media_pipe_processor : Option Unit
deriving DecidableEq

/-- `CameraWorker.__init__` (`camera_worker.py` lines 20-26). -/
def CameraWorker.mk0 (idx : Nat) : CameraWorker :=
  { running := false, camera_index := idx, cap := none,
    media_pipe_processor := none }

/-- `CameraWorker.stop` (`camera_worker.py` lines 121-127): under the mutex,
set `_running` to `False`; nothing else. -/
def CameraWorker.stop (w : CameraWorker) : CameraWorker :=
  { w with running := false }

/-- The entry of `CameraWorker.run` (`camera_worker.py` lines 32-34): under
the mutex, unconditionally set `_running` to `True`. -/
def CameraWorker.runEntry (w : CameraWorker) : CameraWorker :=
  { w with running := true }

/-- Environment input for one loop iteration in the extended model that also
covers a Python exception escaping the loop body (e.g. `self._cap.read()`
raising): either a normal iteration input, or the read call raises. -/
inductive IterInputE where
  | step (i : IterInput)
  | raiseInBody (msg : String)
deriving DecidableEq

/-- The main loop of `CameraWorker.run` in the extended model.  The loop body
(`camera_worker.py` lines 75-104) is not wrapped in any `try`/`finally`, so
an exception raised by the read call propagates out of `run` at once: the
trace stops, the cleanup of lines 106-117 never runs, and the second
component records the escaped exception message. -/
def loopE (iters : List IterInputE) : List Act × Option String :=
  match iters with
  | [] => (cleanupActions, none)
  | IterInputE.step i :: rest =>
      let r := loopE rest
      (iterActions i ++ r.1, r.2)
  | IterInputE.raiseInBody msg :: _ => ([Act.readFrame], some msg)

/-- `CameraWorker.run` in the extended model: as `run`, but loop iterations
may raise.  The result is the performed trace together with the escaped
exception, if any. -/
def runE (idx : Nat) (initResult : Option String) (openOk : Bool)
    (iters : List IterInputE) : List Act × Option String :=
  match initResult with
  | some e =>
      ([Act.emit (Event.error (mediaPipeInitErrorMsg e)),
        Act.emit Event.finished], none)
  | none =>
      if openOk then
        loopE iters
      else
        ([Act.emit (Event.error (cameraOpenErrorMsg idx)),
          Act.closeProcessor,
          Act.emit Event.finished], none)

/-- Round a rational to the nearest integer, ties to even — the rounding
Python applies when formatting a float with a fixed number of decimals. -/
def roundHalfEven (q : ℚ) : ℤ :=
  let f := ⌊q⌋
  let r := q - (f : ℚ)
  if r < 1/2 then f
  else if 1/2 < r then f + 1
  else if f % 2 = 0 then f else f + 1

/-- Left-pad a string with zeros to the given length. -/
def padZeros (d : Nat) (s : String) : String :=
  String.mk (List.replicate (d - s.length) '0') ++ s

/-- Python fixed-point formatting `f"{q:.df}"` of an exact rational value:
round `q` to `d` decimal places (ties to even) and print sign, integer part,
a dot, and exactly `d` fraction digits. -/
def formatFixed (q : ℚ) (d : Nat) : String :=
  let scaled : ℤ := roundHalfEven (q * ((10 : ℚ) ^ d))
  let sign := if scaled < 0 then "-" else ""
  let m := scaled.natAbs
  sign ++ Nat.repr (m / 10 ^ d) ++ "." ++ padZeros d (Nat.repr (m % 10 ^ d))

/-- The 33 landmark names of `widgets/databar_widget.py` lines 86-94. -/
def landmark_names : List String :=
  ["Nose", "Left Eye Inner", "Left Eye", "Left Eye Outer", "Right Eye Inner",
   "Right Eye", "Right Eye Outer", "Left Ear", "Right Ear", "Mouth Left",
   "Mouth Right", "Left Shoulder", "Right Shoulder", "Left Elbow",
   "Right Elbow", "Left Wrist", "Right Wrist", "Left Pinky", "Right Pinky",
   "Left Index", "Right Index", "Left Thumb", "Right Thumb", "Left Hip",
   "Right Hip", "Left Knee", "Right Knee", "Left Ankle", "Right Ankle",
   "Left Heel", "Right Heel", "Left Foot Index", "Right Foot Index"]

/-- One display line for a named landmark
(`widgets/databar_widget.py` line 101, without the trailing newline):
`f"{name}: x={lm.x:.4f}, y={lm.y:.4f}, z={lm.z:.4f}, visibility={lm.visibility:.2f}"`. -/
def formatLandmarkLine (name : String) (lm : Landmark) : String :=
  name ++ ": x=" ++ formatFixed lm.x 4 ++ ", y=" ++ formatFixed lm.y 4 ++
    ", z=" ++ formatFixed lm.z 4 ++ ", visibility=" ++
    formatFixed lm.visibility 2

/-- The display line for entry `i` of the landmark list
(`widgets/databar_widget.py` lines 98-101): the name is
`landmark_names[i]` when `i` is in range, else `f"Landmark {i}"`;
the loop only uses `i < min(len(landmarks), 10)`, so the list access
`landmark[i]` is in range (out-of-range is mapped to a default here). -/
def entryLineAt (lms : List Landmark) (i : Nat) : String :=
  formatLandmarkLine (landmark_names.getD i ("Landmark " ++ Nat.repr i))
    (lms.getD i ⟨0, 0, 0, 0⟩)

/-- The trailer line (`widgets/databar_widget.py` line 105, without the
trailing newline):
`f"... + {undisplayed} more landmarks (total {total})"`. -/
def summaryLine (undisplayed total : Nat) : String :=
  "... + " ++ Nat.repr undisplayed ++ " more landmarks (total " ++
    Nat.repr total ++ ")"

/-- `DatabarContentWidget.update_landmarks_display`
(`widgets/databar_widget.py` lines 57-109), as the text it puts into the
text widget.  `none` models a `None` landmarks object; `some lms` models an
object whose `landmark` attribute holds the list `lms`.  The main path
builds `"Pose Landmarks:\n"`, appends one line (with newline) per entry
index below `min(len, 10)`, and appends the trailer exactly when
`len > min(len, 10)`. -/
def update_landmarks_display (input : Option (List Landmark)) : String :=
  match input with
  | none => "No pose landmarks detected."
  | some lms =>
      let numToDisplay := min lms.length 10
      let text := (List.range numToDisplay).foldl
        (fun acc i => acc ++ (entryLineAt lms i ++ "\n")) "Pose Landmarks:\n"
      if lms.length > numToDisplay then
        text ++ (summaryLine (lms.length - numToDisplay) lms.length ++ "\n")
      else
        text

/-- Concatenation of a list of strings. -/
def joinAll (l : List String) : String :=
  match l with
  | [] => ""
  | s :: rest => s ++ joinAll rest

/-- The per-entry display lines (with their newlines) for a landmark list:
one for each entry index below `min(len, 10)`. -/
def displayEntryLines (lms : List Landmark) : List String :=
  (List.range (min lms.length 10)).map (fun i => entryLineAt lms i ++ "\n")

/-- The landmark of claim C8: entry 0 with x=0.5, y=0.5, z=0.0,
visibility=0.99. -/
def noseLandmark : Landmark :=
  { x := 1/2, y := 1/2, z := 0, visibility := 99/100 }

/-- Boolean test: the action is a frame read. -/
def isReadAct (a : Act) : Bool :=
  match a with
  | Act.readFrame => true
  | _ => false

/-- Boolean test: the action releases the capture handle. -/
def isReleaseAct (a : Act) : Bool :=
  match a with
  | Act.releaseCap => true
  | _ => false

/-- Boolean test: the action closes the processor. -/
def isCloseAct (a : Act) : Bool :=
  match a with
  | Act.closeProcessor => true
  | _ => false

/-! ## Helper lemmas -/

theorem events_append (l₁ l₂ : List Act) :
    events (l₁ ++ l₂) = events l₁ ++ events l₂ :=
  List.filterMap_append l₁ l₂ _

theorem iterActions_all_body (i : IterInput) :
    (iterActions i).all isLoopBodyAct = true := by
  rcases i with _ | ⟨fid, o⟩
  · decide
  · rcases o with msg | lmsOpt
    · simp [iterActions, process_frame, process_frame_try, isLoopBodyAct]
    · rcases lmsOpt with _ | lms <;>
        simp [iterActions, process_frame, process_frame_try, draw_landmarks,
          isLoopBodyAct]

theorem runNoStop_all_body (l : List IterInput) :
    (runNoStop l).all isLoopBodyAct = true := by
  induction l with
  | nil => decide
  | cons i rest ih =>
      have h : runNoStop (i :: rest) = iterActions i ++ runNoStop rest := by
        simp [runNoStop]
      rw [h, List.all_append, iterActions_all_body, ih]
      rfl

theorem body_act_flags (a : Act) (h : isLoopBodyAct a = true) :
    isReleaseAct a = false ∧ isCloseAct a = false ∧ isFinishedEmit a = false := by
  rcases a with e | _ | ms | _ | _ <;> try simp [isReleaseAct, isCloseAct, isFinishedEmit]
  · rcases e with img | lms | msg | _ <;>
      simp_all [isLoopBodyAct, isReleaseAct, isCloseAct, isFinishedEmit]
  · simp_all [isLoopBodyAct]
  · simp_all [isLoopBodyAct]

theorem runNoStop_no_cleanup (l : List IterInput) :
    (runNoStop l).any isReleaseAct = false ∧
    (runNoStop l).any isCloseAct = false ∧
    (runNoStop l).any isFinishedEmit = false := by
  have hall := (List.all_eq_true).1 (runNoStop_all_body l)
  refine ⟨?_, ?_, ?_⟩ <;>
    · rw [List.any_eq_false]
      intro a ha
      have := body_act_flags a (hall a ha)
      simp_all

theorem events_iterActions_body (i : IterInput) :
    (events (iterActions i)).all (fun e => isFrameEv e || isLandmarksEv e) = true := by
  rcases i with _ | ⟨fid, o⟩
  · decide
  · rcases o with msg | lmsOpt
    · simp [iterActions, process_frame, process_frame_try, events, isFrameEv]
    · rcases lmsOpt with _ | lms <;>
        simp [iterActions, process_frame, process_frame_try, draw_landmarks,
          events, isFrameEv, isLandmarksEv]

theorem events_runNoStop_body (l : List IterInput) :
    (events (runNoStop l)).all (fun e => isFrameEv e || isLandmarksEv e) = true := by
  induction l with
  | nil => decide
  | cons i rest ih =>
      have h : runNoStop (i :: rest) = iterActions i ++ runNoStop rest := by
        simp [runNoStop]
      rw [h, events_append, List.all_append, events_iterActions_body, ih]
      rfl

theorem frameOrLandmarks_flags (e : Event) (h : (isFrameEv e || isLandmarksEv e) = true) :
    isErrorEv e = false ∧ isFinishedEv e = false := by
  rcases e with img | lms | msg | _ <;> simp_all [isFrameEv, isLandmarksEv, isErrorEv, isFinishedEv]

theorem events_runNoStop_counts (l : List IterInput) :
    (events (runNoStop l)).countP isErrorEv = 0 ∧
    (events (runNoStop l)).countP isFinishedEv = 0 := by
  have hall := (List.all_eq_true).1 (events_runNoStop_body l)
  constructor <;>
    · rw [List.countP_eq_zero]
      intro e he
      have := frameOrLandmarks_flags e (hall e he)
      simp_all

/-! ## Claim theorems -/

/-- C1: for every session (one execution of `CameraWorker.run`), the emitted
signal sequence has exactly one `finished`, as the very last event (so no
events follow it), at most one `error`, and when an `error` occurs the whole
sequence is just that `error` followed by `finished` — in particular any
`error` precedes every `frame_ready`/`landmarks_ready` event, and the
remaining events are all `frame_ready`/`landmarks_ready`. -/
theorem c1_event_protocol (s : Session) :
    (events (run s)).countP isFinishedEv = 1 ∧
    (events (run s)).getLast? = some Event.finished ∧
    (events (run s)).countP isErrorEv ≤ 1 ∧
    ∀ e ∈ events (run s), isErrorEv e = true →
      events (run s) = [e, Event.finished] := by
  rcases s with ⟨idx, initR, openOk, iters⟩
  rcases initR with _ | msg
  · rcases openOk with _ | _
    · refine ⟨?_, ?_, ?_, ?_⟩ <;>
        · simp only [run, events]
          simp [List.countP_cons, isFinishedEv, isErrorEv]
    · have hrun : run ⟨idx, none, true, iters⟩ =
          runNoStop iters ++ cleanupActions := by simp [run]
      have hev : events (run ⟨idx, none, true, iters⟩) =
          events (runNoStop iters) ++ [Event.finished] := by
        rw [hrun, events_append]
        rfl
      have hcounts := events_runNoStop_counts iters
      have hbody := (List.all_eq_true).1 (events_runNoStop_body iters)
      refine ⟨?_, ?_, ?_, ?_⟩
      · rw [hev, List.countP_append, hcounts.2]
        decide
      · rw [hev, List.getLast?_concat]
      · rw [hev, List.countP_append, hcounts.1]
        decide
      · intro e he herr
        rw [hev] at he
        rcases List.mem_append.1 he with h | h
        · have := frameOrLandmarks_flags e (hbody e h)
          simp_all
        · simp only [List.mem_singleton] at h
          subst h
          simp [isErrorEv] at herr
  · refine ⟨?_, ?_, ?_, ?_⟩ <;>
      · simp only [run, events]
        simp [List.countP_cons, isFinishedEv, isErrorEv]

/-- Witness for C1: applying the theorem to the concrete session where
`MediaPipeProcessor` construction fails with message "boom" and using its
error clause pins down the whole event sequence. -/
theorem c1_event_protocol_witness :
    events (run ⟨0, some "boom", true, []⟩) =
      [Event.error (mediaPipeInitErrorMsg "boom"), Event.finished] :=
  (c1_event_protocol ⟨0, some "boom", true, []⟩).2.2.2
    (Event.error (mediaPipeInitErrorMsg "boom")) (by decide) (by decide)

/-- C4: if opening the camera fails, the session emits the error exactly
once, performs no frame reads, emits zero `frame_ready` and zero
`landmarks_ready` events, and its complete trace is: the error, then the
close of the already-constructed processor, then `finished`. -/
theorem c4_open_failure (idx : Nat) (iters : List IterInput) :
    (events (run ⟨idx, none, false, iters⟩)).countP isErrorEv = 1 ∧
    (run ⟨idx, none, false, iters⟩).countP isReadAct = 0 ∧
    (events (run ⟨idx, none, false, iters⟩)).countP isFrameEv = 0 ∧
    (events (run ⟨idx, none, false, iters⟩)).countP isLandmarksEv = 0 ∧
    run ⟨idx, none, false, iters⟩ =
      [Act.emit (Event.error (cameraOpenErrorMsg idx)), Act.closeProcessor,
       Act.emit Event.finished] := by
  refine ⟨?_, ?_, ?_, ?_, ?_⟩ <;>
    · simp only [run, events]
      simp [List.countP_cons, isErrorEv, isReadAct, isFrameEv, isLandmarksEv]

/-- C9: `MediaPipeProcessor.process_frame` is total at its interface: the
`except Exception` handler turns any exception raised inside the `try` block
into the normal return value `(frame, None)`, with the first component the
original input frame unchanged. (That the function always returns a pair is
the type of `process_frame` itself.) -/
theorem c9_process_frame_total (frame : Image) (o : InferOutcome) (msg : String)
    (h : process_frame_try frame o = Except.error msg) :
    process_frame frame o = (frame, none) := by
  simp [process_frame, h]

/-- Witness for C9 at a concrete raised exception. -/
theorem c9_process_frame_total_witness :
    process_frame (Image.raw 0) (InferOutcome.raises "boom") =
      (Image.raw 0, none) :=
  c9_process_frame_total (Image.raw 0) (InferOutcome.raises "boom") "boom" rfl

/-- C7: `CameraWorker.stop` is idempotent — any number `n ≥ 1` of calls
leaves the worker in exactly the state one call leaves it in — and a single
call only sets the shared running flag to `False`, leaving every other field
of the worker unchanged.  (It performs no other effect, so it does not
block; `stop` mutates the flag under the mutex in the source.) -/
theorem c7_stop_idempotent (w : CameraWorker) (n : Nat) (h : 1 ≤ n) :
    CameraWorker.stop (CameraWorker.stop w) = CameraWorker.stop w ∧
    CameraWorker.stop^[n] w = CameraWorker.stop w ∧
    (CameraWorker.stop w).running = false ∧
    (CameraWorker.stop w).camera_index = w.camera_index ∧
    (CameraWorker.stop w).cap = w.cap ∧
    (CameraWorker.stop w).media_pipe_processor = w.media_pipe_processor := by
  have hidem : ∀ v : CameraWorker,
      CameraWorker.stop (CameraWorker.stop v) = CameraWorker.stop v := by
    intro v
    rfl
  have hiter : ∀ m : Nat, ∀ v : CameraWorker,
      CameraWorker.stop^[m] (CameraWorker.stop v) = CameraWorker.stop v := by
    intro m
    induction m with
    | zero => intro v; rfl
    | succ m ih =>
        intro v
        rw [Function.iterate_succ_apply, hidem, ih]
  refine ⟨hidem w, ?_, rfl, rfl, rfl, rfl⟩
  rcases n with _ | m
  · exact absurd h (by decide)
  · rw [Function.iterate_succ_apply, hiter]

/-- Witness for C7: three calls on a freshly constructed worker equal one
call. -/
theorem c7_stop_idempotent_witness :
    CameraWorker.stop^[3] (CameraWorker.mk0 0) =
      CameraWorker.stop (CameraWorker.mk0 0) :=
  (c7_stop_idempotent (CameraWorker.mk0 0) 3 (by decide)).2.1

/-- C3 (the code deviates): a `stop()` that completes before `run()` starts
is erased, because `run` unconditionally sets the running flag back to
`True` on entry (`camera_worker.py` line 33).  Consequently `runEntry ∘ stop
= runEntry` on every worker state, the flag reads `True` afterwards, and a
session that is never stopped again never emits `finished` — the loop trace
alone contains no `finished` emission, for any number of iterations.  (By
contrast a `stop()` landing after `run` has set the flag is honoured: it is
observed at the first loop check, and the session's trace is exactly
release, close, `finished`.) -/
theorem c3_stop_before_run_lost (w : CameraWorker) (iters : List IterInput)
    (idx : Nat) :
    CameraWorker.runEntry (CameraWorker.stop w) = CameraWorker.runEntry w ∧
    (CameraWorker.runEntry (CameraWorker.stop w)).running = true ∧
    (runNoStop iters).any isFinishedEmit = false ∧
    run ⟨idx, none, true, []⟩ =
      [Act.releaseCap, Act.closeProcessor, Act.emit Event.finished] := by
  refine ⟨rfl, rfl, (runNoStop_no_cleanup iters).2.2, ?_⟩
  simp [run, runNoStop, cleanupActions]

/-- C2 (the claim fails on the code): with inference raising on frame 5 and
succeeding on frame 6, the cycle for frame 5 still emits `frame_ready`
(carrying the original, unannotated frame — `process_frame` catches the
exception internally and returns `(frame, None)`, so the skip branch in
`CameraWorker.run` never runs), and the pair therefore produces two
`frame_ready` events, not one. -/
theorem c2_counterexample :
    events (run ⟨0, none, true,
        [IterInput.readOk 5 (InferOutcome.raises "boom"),
         IterInput.readOk 6 (InferOutcome.ok (some [noseLandmark]))]⟩) =
      [Event.frame_ready (Image.raw 5),
       Event.frame_ready (Image.drawn (Image.raw 6) [noseLandmark]),
       Event.landmarks_ready [noseLandmark],
       Event.finished] ∧
    (events (run ⟨0, none, true,
        [IterInput.readOk 5 (InferOutcome.raises "boom"),
         IterInput.readOk 6 (InferOutcome.ok (some [noseLandmark]))]⟩)).countP
      isFrameEv = 2 := by
  constructor <;>
    simp [run, runNoStop, iterActions, process_frame, process_frame_try,
      draw_landmarks, events, cleanupActions, List.countP_cons, isFrameEv]

/-- C2 as amended: when inference raises for frame N and succeeds for frame
N+1, the cycle for frame N emits `frame_ready` with the original frame and
no `landmarks_ready`; the pair contributes exactly the three events shown
(two `frame_ready`, one `landmarks_ready`); the surrounding iterations are
unaffected and the session still terminates with its single `finished`. -/
theorem c2_amended (idx fidN fidN1 : Nat) (msg : String) (lms : List Landmark)
    (pre post : List IterInput) :
    events (run ⟨idx, none, true,
        pre ++ IterInput.readOk fidN (InferOutcome.raises msg) ::
          IterInput.readOk fidN1 (InferOutcome.ok (some lms)) :: post⟩) =
      events (runNoStop pre) ++
        ([Event.frame_ready (Image.raw fidN),
          Event.frame_ready (Image.drawn (Image.raw fidN1) lms),
          Event.landmarks_ready lms] ++
          (events (runNoStop post) ++ [Event.finished])) ∧
    (events (run ⟨idx, none, true,
        pre ++ IterInput.readOk fidN (InferOutcome.raises msg) ::
          IterInput.readOk fidN1 (InferOutcome.ok (some lms)) :: post⟩)).countP
      isFinishedEv = 1 := by
  have hsplit : runNoStop (pre ++ IterInput.readOk fidN (InferOutcome.raises msg) ::
      IterInput.readOk fidN1 (InferOutcome.ok (some lms)) :: post) =
      runNoStop pre ++
        (iterActions (IterInput.readOk fidN (InferOutcome.raises msg)) ++
          (iterActions (IterInput.readOk fidN1 (InferOutcome.ok (some lms))) ++
            runNoStop post)) := by
    simp [runNoStop]
  have hrun : run ⟨idx, none, true,
      pre ++ IterInput.readOk fidN (InferOutcome.raises msg) ::
        IterInput.readOk fidN1 (InferOutcome.ok (some lms)) :: post⟩ =
      runNoStop pre ++
        (iterActions (IterInput.readOk fidN (InferOutcome.raises msg)) ++
          (iterActions (IterInput.readOk fidN1 (InferOutcome.ok (some lms))) ++
            (runNoStop post ++ cleanupActions))) := by
    simp [run, hsplit]
  constructor
  · rw [hrun]
    simp only [events_append]
    simp [iterActions, process_frame, process_frame_try, draw_landmarks,
      events, cleanupActions]
  · rw [hrun]
    simp only [events_append, List.countP_append]
    have h1 := (events_runNoStop_counts pre).2
    have h2 := (events_runNoStop_counts post).2
    rw [h1, h2]
    simp [iterActions, process_frame, process_frame_try, draw_landmarks,
      events, cleanupActions, List.countP_cons, isFinishedEv]

/-- C6: a failed frame read performs exactly a read and a 10 ms sleep —
emitting nothing, in particular no `error` — and the session's observable
event sequence is exactly what it would have been without that iteration;
the loop continues and the session still ends with its single `finished`. -/
theorem c6_failed_read_continues (idx : Nat) (pre post : List IterInput) :
    iterActions IterInput.readFail = [Act.readFrame, Act.sleepMs 10] ∧
    events (run ⟨idx, none, true, pre ++ IterInput.readFail :: post⟩) =
      events (run ⟨idx, none, true, pre ++ post⟩) ∧
    (events (run ⟨idx, none, true, pre ++ IterInput.readFail :: post⟩)).countP
      isFinishedEv = 1 := by
  have hsplit : runNoStop (pre ++ IterInput.readFail :: post) =
      runNoStop pre ++ (iterActions IterInput.readFail ++ runNoStop post) := by
    simp [runNoStop]
  have hsplit2 : runNoStop (pre ++ post) = runNoStop pre ++ runNoStop post := by
    simp [runNoStop]
  have hrun : run ⟨idx, none, true, pre ++ IterInput.readFail :: post⟩ =
      runNoStop pre ++ (iterActions IterInput.readFail ++
        (runNoStop post ++ cleanupActions)) := by
    simp [run, hsplit]
  have hrun2 : run ⟨idx, none, true, pre ++ post⟩ =
      runNoStop pre ++ (runNoStop post ++ cleanupActions) := by
    simp [run, hsplit2]
  refine ⟨rfl, ?_, ?_⟩
  · rw [hrun, hrun2]
    simp only [events_append]
    simp [iterActions, events]
  · rw [hrun]
    simp only [events_append, List.countP_append]
    have h1 := (events_runNoStop_counts pre).2
    have h2 := (events_runNoStop_counts post).2
    rw [h1, h2]
    simp [iterActions, events, cleanupActions, List.countP_cons, isFinishedEv]

/-- C5 (the claim fails on the code for one of its exit paths): when an
exception escapes the loop body — here `self._cap.read()` raising after the
camera opened — `run` has no `try`/`finally`, so the exception propagates:
the trace is just the started read, the camera is never released, the
processor is never closed, and `finished` is never emitted. -/
theorem c5_counterexample :
    runE 0 none true [IterInputE.raiseInBody "cv2.error"] =
      ([Act.readFrame], some "cv2.error") ∧
    (runE 0 none true [IterInputE.raiseInBody "cv2.error"]).1.any
      isReleaseAct = false ∧
    (runE 0 none true [IterInputE.raiseInBody "cv2.error"]).1.any
      isCloseAct = false ∧
    (runE 0 none true [IterInputE.raiseInBody "cv2.error"]).1.any
      isFinishedEmit = false := by
  refine ⟨rfl, ?_, ?_, ?_⟩ <;> decide

/-- C5 as amended: on every exit path on which the loop body does not raise
(normal stop or fatal initialization error), the trace ends with the single
`finished` emission, preceded by a prefix that releases the capture handle
exactly when the camera was opened and closes the processor exactly when it
was constructed — so both releases happen strictly before `finished`. -/
theorem c5_amended (s : Session) :
    ∃ pre, run s = pre ++ [Act.emit Event.finished] ∧
      pre.countP isFinishedEmit = 0 ∧
      pre.any isReleaseAct = (s.initResult.isNone && s.openOk) ∧
      pre.any isCloseAct = s.initResult.isNone := by
  rcases s with ⟨idx, initR, openOk, iters⟩
  rcases initR with _ | msg
  · rcases openOk with _ | _
    · refine ⟨[Act.emit (Event.error (cameraOpenErrorMsg idx)),
        Act.closeProcessor], ?_, ?_, ?_, ?_⟩ <;>
        simp [run, List.countP_cons, isFinishedEmit, isReleaseAct, isCloseAct]
    · refine ⟨runNoStop iters ++ [Act.releaseCap, Act.closeProcessor],
        ?_, ?_, ?_, ?_⟩
      · simp [run, cleanupActions]
      · rw [List.countP_append]
        have h := (runNoStop_no_cleanup iters).2.2
        rw [List.any_eq_false] at h
        have h0 : (runNoStop iters).countP isFinishedEmit = 0 :=
          (List.countP_eq_zero).2 h
        rw [h0]
        decide
      · rw [List.any_append, (runNoStop_no_cleanup iters).1]
        rfl
      · rw [List.any_append, (runNoStop_no_cleanup iters).2.1]
        rfl
  · refine ⟨[Act.emit (Event.error (mediaPipeInitErrorMsg msg))],
      ?_, ?_, ?_, ?_⟩ <;>
      simp [run, List.countP_cons, isFinishedEmit, isReleaseAct, isCloseAct]

theorem joinAll_append (l₁ l₂ : List String) :
    joinAll (l₁ ++ l₂) = joinAll l₁ ++ joinAll l₂ := by
  induction l₁ with
  | nil => simp [joinAll]
  | cons s rest ih => simp [joinAll, ih, String.append_assoc]

theorem foldl_lines (lms : List Landmark) (l : List ℕ) (a : String) :
    l.foldl (fun acc i => acc ++ (entryLineAt lms i ++ "\n")) a =
      a ++ joinAll (l.map (fun i => entryLineAt lms i ++ "\n")) := by
  induction l generalizing a with
  | nil => simp [joinAll, String.append_empty]
  | cons i rest ih =>
      simp only [List.foldl_cons, List.map_cons, joinAll]
      rw [ih, String.append_assoc]

theorem roundHalfEven_intCast (n : ℤ) : roundHalfEven ((n : ℚ)) = n := by
  unfold roundHalfEven
  simp only [Int.floor_intCast, sub_self]
  norm_num

theorem formatFixed_eval (q : ℚ) (d : Nat) (n : ℤ)
    (h : q * ((10 : ℚ) ^ d) = (n : ℚ)) :
    formatFixed q d =
      (if n < 0 then "-" else "") ++ Nat.repr (n.natAbs / 10 ^ d) ++ "." ++
        padZeros d (Nat.repr (n.natAbs % 10 ^ d)) := by
  unfold formatFixed
  rw [h, roundHalfEven_intCast]

theorem exists_tail_of_append (a b c d : String) :
    ∃ t, (a ++ (b ++ c)) ++ d = (a ++ b) ++ t :=
  ⟨c ++ d, by rw [← String.append_assoc a b c, String.append_assoc (a ++ b) c d]⟩

theorem exists_tail_of_append' (a b c : String) :
    ∃ t, a ++ (b ++ c) = (a ++ b) ++ t :=
  ⟨c, (String.append_assoc a b c).symm⟩

/-- C8: for every landmark list whose entry 0 has x=0.5, y=0.5, z=0.0 and
visibility=0.99, the display formatter's line for the first entry is exactly
`"Nose: x=0.5000, y=0.5000, z=0.0000, visibility=0.99"` (x, y, z to four
decimal places, visibility to two, named "Nose"), and the rendered display
text starts with the header followed by exactly that line. -/
theorem c8_nose_line (rest : List Landmark) :
    entryLineAt (noseLandmark :: rest) 0 =
      "Nose: x=0.5000, y=0.5000, z=0.0000, visibility=0.99" ∧
    ∃ t, update_landmarks_display (some (noseLandmark :: rest)) =
      "Pose Landmarks:\n" ++
        ("Nose: x=0.5000, y=0.5000, z=0.0000, visibility=0.99" ++ "\n") ++
        t := by
  have hx : formatFixed noseLandmark.x 4 = "0.5000" := by
    rw [formatFixed_eval noseLandmark.x 4 5000 (by norm_num [noseLandmark])]
    decide
  have hy : formatFixed noseLandmark.y 4 = "0.5000" := by
    rw [formatFixed_eval noseLandmark.y 4 5000 (by norm_num [noseLandmark])]
    decide
  have hz : formatFixed noseLandmark.z 4 = "0.0000" := by
    rw [formatFixed_eval noseLandmark.z 4 0 (by norm_num [noseLandmark])]
    decide
  have hv : formatFixed noseLandmark.visibility 2 = "0.99" := by
    rw [formatFixed_eval noseLandmark.visibility 2 99
      (by norm_num [noseLandmark])]
    decide
  have hline : entryLineAt (noseLandmark :: rest) 0 =
      "Nose: x=0.5000, y=0.5000, z=0.0000, visibility=0.99" := by
    simp only [entryLineAt, List.getD_cons_zero]
    have hname : landmark_names.getD 0 ("Landmark " ++ Nat.repr 0) = "Nose" := by
      decide
    rw [hname]
    simp only [formatLandmarkLine, hx, hy, hz, hv]
    decide
  refine ⟨hline, ?_⟩
  simp only [update_landmarks_display]
  rw [foldl_lines]
  have hpos : 0 < min (noseLandmark :: rest).length 10 := by
    simp
  obtain ⟨m, hm⟩ : ∃ m, min (noseLandmark :: rest).length 10 = m + 1 :=
    ⟨min (noseLandmark :: rest).length 10 - 1, by omega⟩
  rw [hm, List.range_succ_eq_map]
  simp only [List.map_cons, joinAll]
  rw [hline]
  split
  · exact exists_tail_of_append _ _ _ _
  · exact exists_tail_of_append' _ _ _

/-- C10: for a landmark list with n entries the display text is the header
line, one formatted line for each of the first `min n 10` entries, and a
trailer naming the number of undisplayed entries and the total — the
trailer being present if and only if `n > 10` (the code's guard
`n > min n 10` is equivalent to `10 < n`). -/
theorem c10_display_structure (lms : List Landmark) :
    update_landmarks_display (some lms) =
      joinAll ("Pose Landmarks:\n" :: displayEntryLines lms ++
        (if 10 < lms.length then
          [summaryLine (lms.length - 10) lms.length ++ "\n"] else [])) ∧
    (displayEntryLines lms).length = min lms.length 10 ∧
    (lms.length > min lms.length 10 ↔ 10 < lms.length) := by
  refine ⟨?_, by simp [displayEntryLines], by omega⟩
  simp only [update_landmarks_display]
  rw [foldl_lines]
  by_cases h10 : 10 < lms.length
  · have hmin : min lms.length 10 = 10 := by omega
    have hcond : lms.length > min lms.length 10 := by omega
    rw [if_pos hcond, if_pos h10]
    simp only [displayEntryLines, hmin, joinAll, joinAll_append,
      String.append_assoc, String.append_empty]
  · have hmin : min lms.length 10 = lms.length := by omega
    have hcond : ¬ lms.length > min lms.length 10 := by omega
    rw [if_neg hcond, if_neg h10]
    simp [displayEntryLines, hmin, joinAll]
